import Mathlib

/-!
Verification of the astrocalender Panchangam engine.

The TypeScript source is shallowly embedded over `ℚ`: JavaScript numbers are
modelled as rationals (every finite IEEE double is a rational), `Math.floor`
becomes `Int.floor`, and the JavaScript `%` operator (truncated remainder)
becomes `jsMod` below.  Transcendental ephemeris functions (sun/moon
longitudes, which use `Math.sin`) are kept abstract: the engines that receive
an angle-producing function as a parameter in the source are embedded as
functions parametrised by `ℚ → ℚ`.  External libraries (SunCalc, luxon,
zod, Decimal.js) are modelled at their call boundary.
-/

namespace Astro

/-- Truncation toward zero of a rational, matching JavaScript's truncated
division used by the `%` operator on numbers. -/
def ratTrunc (q : ℚ) : ℤ :=
  if 0 ≤ q then ⌊q⌋ else ⌈q⌉

/-- JavaScript `x % y` on numbers: `x - y * trunc (x / y)`. -/
def jsMod (x y : ℚ) : ℚ :=
  x - y * (ratTrunc (x / y) : ℚ)

/-- The `((x % 360) + 360) % 360` normalisation pattern used throughout the
source (`getRasiIndex`, `getTamilDay`, `tropicalToSidereal`, ...). -/
def normalize360 (x : ℚ) : ℚ :=
  jsMod (jsMod x 360 + 360) 360

/-- From `swisseph.ts` `findAngleCrossing`: the wraparound difference
`diff = currentAngle - targetAngle` followed by the two sequential
adjustments `if (diff > 180) diff -= 360; if (diff < -180) diff += 360`. -/
def arcDiff (currentAngle targetAngle : ℚ) : ℚ :=
  let d := currentAngle - targetAngle
  let d1 := if 180 < d then d - 360 else d
  if d1 < -180 then d1 + 360 else d1

/-- The loop body of `findAngleCrossing` (`swisseph.ts` lines 290-327), with
the remaining iteration count as fuel.  Fuel `0` returns `(low + high) / 2`,
exactly the post-loop `return (low + high) / 2` of the source. -/
def bisect (getAngle : ℚ → ℚ) (targetAngle tolerance : ℚ) :
    ℕ → ℚ → ℚ → ℚ
  | 0, low, high => (low + high) / 2
  | n + 1, low, high =>
    if |arcDiff (getAngle ((low + high) / 2)) targetAngle| < tolerance then
      (low + high) / 2
    else if arcDiff (getAngle low) targetAngle *
        arcDiff (getAngle ((low + high) / 2)) targetAngle < 0 then
      bisect getAngle targetAngle tolerance n low ((low + high) / 2)
    else
      bisect getAngle targetAngle tolerance n ((low + high) / 2) high

/-- `findAngleCrossing` from `swisseph.ts`: bisection with
`maxIterations = 50`. -/
def findAngleCrossing (startJD endJD targetAngle : ℚ) (getAngle : ℚ → ℚ)
    (tolerance : ℚ) : ℚ :=
  bisect getAngle targetAngle tolerance 50 startJD endJD

/-- One pure halving step of the bisection (the branch taken when the
midpoint is not within tolerance); used to state the iteration-cap
behaviour of `findAngleCrossing`. -/
def bisectStep (getAngle : ℚ → ℚ) (targetAngle : ℚ) (p : ℚ × ℚ) : ℚ × ℚ :=
  if arcDiff (getAngle p.1) targetAngle *
      arcDiff (getAngle ((p.1 + p.2) / 2)) targetAngle < 0 then
    (p.1, (p.1 + p.2) / 2)
  else
    ((p.1 + p.2) / 2, p.2)

/-- Hypotheses under which the bracketed bisection is guaranteed to land
within tolerance of the target: the wraparound difference is negative at the
low end, nonnegative at the high end (the caller brackets a crossing, §4.3 of
the spec), and is Lipschitz on the bracket with a constant small enough that
50 halvings push the residual below the tolerance. -/
def BracketOK (f : ℚ → ℚ) (lo hi target L tol : ℚ) : Prop :=
  arcDiff (f lo) target < 0 ∧
  0 ≤ arcDiff (f hi) target ∧
  (∀ x y, lo ≤ x → x ≤ y → y ≤ hi →
    |arcDiff (f y) target - arcDiff (f x) target| ≤ L * (y - x)) ∧
  L * (hi - lo) < tol * 2 ^ 51 ∧
  0 < tol

-- ---------------------------------------------------------------------------
-- Spans (config constants)
-- ---------------------------------------------------------------------------

/-- `TITHI_SPAN` from `config/tithi.ts`. -/
def TITHI_SPAN : ℚ := 12

/-- `NAKSHATRA_SPAN` from `config/nakshatra.ts`. -/
def NAKSHATRA_SPAN : ℚ := 360 / 27

/-- `YOGA_SPAN` from `config/yoga.ts`. -/
def YOGA_SPAN : ℚ := 360 / 27

/-- `KARANA_SPAN` from `config/karana.ts`. -/
def KARANA_SPAN : ℚ := 6

/-- `RASI_SPAN` from `config/rasi.ts`. -/
def RASI_SPAN : ℚ := 30

-- ---------------------------------------------------------------------------
-- Limb engines' end-time searches (each passes its angle closure)
-- ---------------------------------------------------------------------------

/-- `findTithiEndTime` from `tithi.ts`: next boundary
`(currentTithiIndex * TITHI_SPAN) % 360`, search window 2 days,
tolerance 0.001.  The elongation closure is a parameter (in the source it
closes over the ephemeris). -/
def findTithiEndTime (getElongation : ℚ → ℚ) (currentJD : ℚ)
    (currentTithiIndex : ℤ) : ℚ :=
  findAngleCrossing currentJD (currentJD + 2)
    (jsMod ((currentTithiIndex : ℚ) * TITHI_SPAN) 360) getElongation (1 / 1000)

/-- `findNakshatraEndTime` from `nakshatra.ts`. -/
def findNakshatraEndTime (moonLonAt : ℚ → ℚ) (currentJD : ℚ)
    (currentNakshatraIndex : ℤ) : ℚ :=
  findAngleCrossing currentJD (currentJD + 2)
    (jsMod ((currentNakshatraIndex : ℚ) * NAKSHATRA_SPAN) 360) moonLonAt (1 / 1000)

/-- `findYogaEndTime` from `yoga.ts`. -/
def findYogaEndTime (combinedAt : ℚ → ℚ) (currentJD : ℚ)
    (currentYogaIndex : ℤ) : ℚ :=
  findAngleCrossing currentJD (currentJD + 2)
    (jsMod ((currentYogaIndex : ℚ) * YOGA_SPAN) 360) combinedAt (1 / 1000)

/-- `findKaranaEndTime` from `karana.ts`: search window 1 day. -/
def findKaranaEndTime (getElongation : ℚ → ℚ) (currentJD : ℚ)
    (currentKaranaNumber : ℤ) : ℚ :=
  findAngleCrossing currentJD (currentJD + 1)
    (jsMod ((currentKaranaNumber : ℚ) * KARANA_SPAN) 360) getElongation (1 / 1000)

-- ---------------------------------------------------------------------------
-- Bilingual labels and configuration records (types/panchangam.ts)
-- ---------------------------------------------------------------------------

/-- `BilingualText` from `types/panchangam.ts`. -/
structure BilingualText where
  en : String
  ta : String
deriving DecidableEq, Inhabited

/-- The `'movable' | 'fixed'` union of `KaranaConfig`. -/
inductive KaranaType where
  | movable
  | fixed
deriving DecidableEq, Inhabited

/-- `KaranaConfig` from `types/panchangam.ts`. -/
structure KaranaConfig where
  index : ℤ
  name : BilingualText
  type : KaranaType
deriving DecidableEq, Inhabited

/-- `FIXED_KARANAS` from `config/karana.ts`. -/
def FIXED_KARANAS : List KaranaConfig :=
  [ ⟨8,  ⟨"Shakuni",     "சகுனி"⟩,        KaranaType.fixed⟩,
    ⟨9,  ⟨"Chatushpada", "சதுஷ்பாதம்"⟩,   KaranaType.fixed⟩,
    ⟨10, ⟨"Naga",        "நாகம்"⟩,        KaranaType.fixed⟩,
    ⟨11, ⟨"Kimstughna",  "கிம்ஸ்துக்னம்"⟩, KaranaType.fixed⟩ ]

/-- `MOVABLE_KARANAS` from `config/karana.ts`. -/
def MOVABLE_KARANAS : List KaranaConfig :=
  [ ⟨1, ⟨"Bava",    "பவ"⟩,     KaranaType.movable⟩,
    ⟨2, ⟨"Balava",  "பாலவ"⟩,   KaranaType.movable⟩,
    ⟨3, ⟨"Kaulava", "கௌலவ"⟩,   KaranaType.movable⟩,
    ⟨4, ⟨"Taitila", "தைதுல"⟩,  KaranaType.movable⟩,
    ⟨5, ⟨"Gara",    "கரஜை"⟩,   KaranaType.movable⟩,
    ⟨6, ⟨"Vanija",  "வணிக்"⟩,  KaranaType.movable⟩,
    ⟨7, ⟨"Vishti",  "பத்ரை"⟩,  KaranaType.movable⟩ ]

/-- Stand-in for the source's non-null list-index assertion
(`FIXED_KARANAS[3]!`); the accesses are all in range so it is never used. -/
def defaultKaranaConfig : KaranaConfig := ⟨0, ⟨"", ""⟩, KaranaType.movable⟩

/-- `getKaranaByNumber` from `config/karana.ts`: maps a 1-60 half-tithi slot
to one of the 11 karanas.  The JS `%` on the nonnegative slot is `Int.tmod`. -/
def getKaranaByNumber (karanaNumber : ℤ) : KaranaConfig :=
  let num := (karanaNumber - 1).tmod 60 + 1
  if num = 1 then FIXED_KARANAS.getD 3 defaultKaranaConfig
  else if num = 58 then FIXED_KARANAS.getD 0 defaultKaranaConfig
  else if num = 59 then FIXED_KARANAS.getD 1 defaultKaranaConfig
  else if num = 60 then FIXED_KARANAS.getD 2 defaultKaranaConfig
  else MOVABLE_KARANAS.getD ((num - 2).tmod 7).toNat defaultKaranaConfig

/-- `RasiConfig` from `types/panchangam.ts`. -/
structure RasiConfig where
  index : ℤ
  name : BilingualText
  lord : BilingualText
  startDegree : ℚ
deriving DecidableEq, Inhabited

/-- `RASIS` from `config/rasi.ts`. -/
def RASIS : List RasiConfig :=
  [ ⟨1,  ⟨"Mesha",     "மேஷம்"⟩,      ⟨"Mars",    "செவ்வாய்"⟩,  0⟩,
    ⟨2,  ⟨"Vrishabha", "ரிஷபம்"⟩,     ⟨"Venus",   "சுக்கிரன்"⟩, 30⟩,
    ⟨3,  ⟨"Mithuna",   "மிதுனம்"⟩,    ⟨"Mercury", "புதன்"⟩,     60⟩,
    ⟨4,  ⟨"Karka",     "கடகம்"⟩,      ⟨"Moon",    "சந்திரன்"⟩,  90⟩,
    ⟨5,  ⟨"Simha",     "சிம்மம்"⟩,    ⟨"Sun",     "சூரியன்"⟩,   120⟩,
    ⟨6,  ⟨"Kanya",     "கன்னி"⟩,      ⟨"Mercury", "புதன்"⟩,     150⟩,
    ⟨7,  ⟨"Tula",      "துலாம்"⟩,     ⟨"Venus",   "சுக்கிரன்"⟩, 180⟩,
    ⟨8,  ⟨"Vrischika", "விருச்சிகம்"⟩, ⟨"Mars",    "செவ்வாய்"⟩,  210⟩,
    ⟨9,  ⟨"Dhanu",     "தனுசு"⟩,      ⟨"Jupiter", "குரு"⟩,      240⟩,
    ⟨10, ⟨"Makara",    "மகரம்"⟩,      ⟨"Saturn",  "சனி"⟩,       270⟩,
    ⟨11, ⟨"Kumbha",    "கும்பம்"⟩,    ⟨"Saturn",  "சனி"⟩,       300⟩,
    ⟨12, ⟨"Meena",     "மீனம்"⟩,      ⟨"Jupiter", "குரு"⟩,      330⟩ ]

/-- `getRasiIndex` from `config/rasi.ts`:
`Math.floor(((longitude % 360) + 360) % 360 / RASI_SPAN) + 1`. -/
def getRasiIndex (longitude : ℚ) : ℤ :=
  ⌊normalize360 longitude / RASI_SPAN⌋ + 1

/-- `getDegreeInRasi` from `config/rasi.ts`. -/
def getDegreeInRasi (longitude : ℚ) : ℚ :=
  jsMod (normalize360 longitude) RASI_SPAN

/-- `getRasiConfig` from `config/rasi.ts`. -/
def getRasiConfig (index : ℤ) : Option RasiConfig :=
  RASIS.find? (fun r => r.index == index)

/-- `NakshatraConfig` from `types/panchangam.ts`. -/
structure NakshatraConfig where
  index : ℤ
  name : BilingualText
  lord : BilingualText
  startDegree : ℚ
deriving DecidableEq, Inhabited

/-- `NAKSHATRAS` from `config/nakshatra.ts` (the decimal `startDegree`
literals of the source are kept exactly). -/
def NAKSHATRAS : List NakshatraConfig :=
  [ ⟨1,  ⟨"Ashwini",           "அஸ்வினி"⟩,       ⟨"Ketu",    "கேது"⟩,      0⟩,
    ⟨2,  ⟨"Bharani",           "பரணி"⟩,          ⟨"Venus",   "சுக்கிரன்"⟩, 13333333/1000000⟩,
    ⟨3,  ⟨"Krittika",          "கார்த்திகை"⟩,    ⟨"Sun",     "சூரியன்"⟩,   26666667/1000000⟩,
    ⟨4,  ⟨"Rohini",            "ரோகிணி"⟩,        ⟨"Moon",    "சந்திரன்"⟩,  40⟩,
    ⟨5,  ⟨"Mrigashira",        "மிருகசீரிடம்"⟩,  ⟨"Mars",    "செவ்வாய்"⟩,  53333333/1000000⟩,
    ⟨6,  ⟨"Ardra",             "திருவாதிரை"⟩,    ⟨"Rahu",    "ராகு"⟩,      66666667/1000000⟩,
    ⟨7,  ⟨"Punarvasu",         "புனர்பூசம்"⟩,    ⟨"Jupiter", "குரு"⟩,      80⟩,
    ⟨8,  ⟨"Pushya",            "பூசம்"⟩,         ⟨"Saturn",  "சனி"⟩,       93333333/1000000⟩,
    ⟨9,  ⟨"Ashlesha",          "ஆயில்யம்"⟩,      ⟨"Mercury", "புதன்"⟩,     106666667/1000000⟩,
    ⟨10, ⟨"Magha",             "மகம்"⟩,          ⟨"Ketu",    "கேது"⟩,      120⟩,
    ⟨11, ⟨"Purva Phalguni",    "பூரம்"⟩,         ⟨"Venus",   "சுக்கிரன்"⟩, 133333333/1000000⟩,
    ⟨12, ⟨"Uttara Phalguni",   "உத்திரம்"⟩,      ⟨"Sun",     "சூரியன்"⟩,   146666667/1000000⟩,
    ⟨13, ⟨"Hasta",             "ஹஸ்தம்"⟩,        ⟨"Moon",    "சந்திரன்"⟩,  160⟩,
    ⟨14, ⟨"Chitra",            "சித்திரை"⟩,      ⟨"Mars",    "செவ்வாய்"⟩,  173333333/1000000⟩,
    ⟨15, ⟨"Swati",             "சுவாதி"⟩,        ⟨"Rahu",    "ராகு"⟩,      186666667/1000000⟩,
    ⟨16, ⟨"Vishakha",          "விசாகம்"⟩,       ⟨"Jupiter", "குரு"⟩,      200⟩,
    ⟨17, ⟨"Anuradha",          "அனுஷம்"⟩,        ⟨"Saturn",  "சனி"⟩,       213333333/1000000⟩,
    ⟨18, ⟨"Jyeshtha",          "கேட்டை"⟩,        ⟨"Mercury", "புதன்"⟩,     226666667/1000000⟩,
    ⟨19, ⟨"Moola",             "மூலம்"⟩,         ⟨"Ketu",    "கேது"⟩,      240⟩,
    ⟨20, ⟨"Purva Ashadha",     "பூராடம்"⟩,       ⟨"Venus",   "சுக்கிரன்"⟩, 253333333/1000000⟩,
    ⟨21, ⟨"Uttara Ashadha",    "உத்திராடம்"⟩,    ⟨"Sun",     "சூரியன்"⟩,   266666667/1000000⟩,
    ⟨22, ⟨"Shravana",          "திருவோணம்"⟩,     ⟨"Moon",    "சந்திரன்"⟩,  280⟩,
    ⟨23, ⟨"Dhanishta",         "அவிட்டம்"⟩,      ⟨"Mars",    "செவ்வாய்"⟩,  293333333/1000000⟩,
    ⟨24, ⟨"Shatabhisha",       "சதயம்"⟩,         ⟨"Rahu",    "ராகு"⟩,      306666667/1000000⟩,
    ⟨25, ⟨"Purva Bhadrapada",  "பூரட்டாதி"⟩,     ⟨"Jupiter", "குரு"⟩,      320⟩,
    ⟨26, ⟨"Uttara Bhadrapada", "உத்திரட்டாதி"⟩,  ⟨"Saturn",  "சனி"⟩,       333333333/1000000⟩,
    ⟨27, ⟨"Revati",            "ரேவதி"⟩,         ⟨"Mercury", "புதன்"⟩,     346666667/1000000⟩ ]

/-- JavaScript `String.prototype.toLowerCase` restricted to the ASCII names
it is applied to in `getNakshatraByName`. -/
def strToLower (s : String) : String :=
  String.mk (s.data.map Char.toLower)

/-- `getNakshatraByName` from `config/nakshatra.ts`: case-insensitive match
on the English name or exact match on the Tamil name. -/
def getNakshatraByName (name : String) : Option NakshatraConfig :=
  NAKSHATRAS.find? (fun n =>
    (strToLower n.name.en == strToLower name) || (n.name.ta == name))

-- ---------------------------------------------------------------------------
-- Tithi configuration and engine (config/tithi.ts, engine/tithi.ts)
-- ---------------------------------------------------------------------------

/-- The `'shukla' | 'krishna'` union of `TithiConfig`. -/
inductive Paksha where
  | shukla
  | krishna
deriving DecidableEq, Inhabited

/-- `TithiConfig` from `types/panchangam.ts`. -/
structure TithiConfig where
  index : ℤ
  name : BilingualText
  paksha : Paksha
deriving DecidableEq, Inhabited

/-- `PAKSHA.shukla` from `config/tithi.ts`. -/
def PAKSHA_shukla : BilingualText := ⟨"Shukla Paksha", "சுக்ல பக்ஷம்"⟩

/-- `PAKSHA.krishna` from `config/tithi.ts`. -/
def PAKSHA_krishna : BilingualText := ⟨"Krishna Paksha", "கிருஷ்ண பக்ஷம்"⟩

/-- `TITHIS` from `config/tithi.ts`. -/
def TITHIS : List TithiConfig :=
  [ ⟨1,  ⟨"Pratipada",   "பிரதமை"⟩,    Paksha.shukla⟩,
    ⟨2,  ⟨"Dwitiya",     "துவிதியை"⟩,  Paksha.shukla⟩,
    ⟨3,  ⟨"Tritiya",     "திருதியை"⟩,  Paksha.shukla⟩,
    ⟨4,  ⟨"Chaturthi",   "சதுர்த்தி"⟩,  Paksha.shukla⟩,
    ⟨5,  ⟨"Panchami",    "பஞ்சமி"⟩,    Paksha.shukla⟩,
    ⟨6,  ⟨"Shashti",     "சஷ்டி"⟩,     Paksha.shukla⟩,
    ⟨7,  ⟨"Saptami",     "சப்தமி"⟩,    Paksha.shukla⟩,
    ⟨8,  ⟨"Ashtami",     "அஷ்டமி"⟩,    Paksha.shukla⟩,
    ⟨9,  ⟨"Navami",      "நவமி"⟩,      Paksha.shukla⟩,
    ⟨10, ⟨"Dashami",     "தசமி"⟩,      Paksha.shukla⟩,
    ⟨11, ⟨"Ekadashi",    "ஏகாதசி"⟩,    Paksha.shukla⟩,
    ⟨12, ⟨"Dwadashi",    "துவாதசி"⟩,   Paksha.shukla⟩,
    ⟨13, ⟨"Trayodashi",  "திரயோதசி"⟩,  Paksha.shukla⟩,
    ⟨14, ⟨"Chaturdashi", "சதுர்தசி"⟩,  Paksha.shukla⟩,
    ⟨15, ⟨"Purnima",     "பூர்ணிமா"⟩,  Paksha.shukla⟩,
    ⟨16, ⟨"Pratipada",   "பிரதமை"⟩,    Paksha.krishna⟩,
    ⟨17, ⟨"Dwitiya",     "துவிதியை"⟩,  Paksha.krishna⟩,
    ⟨18, ⟨"Tritiya",     "திருதியை"⟩,  Paksha.krishna⟩,
    ⟨19, ⟨"Chaturthi",   "சதுர்த்தி"⟩,  Paksha.krishna⟩,
    ⟨20, ⟨"Panchami",    "பஞ்சமி"⟩,    Paksha.krishna⟩,
    ⟨21, ⟨"Shashti",     "சஷ்டி"⟩,     Paksha.krishna⟩,
    ⟨22, ⟨"Saptami",     "சப்தமி"⟩,    Paksha.krishna⟩,
    ⟨23, ⟨"Ashtami",     "அஷ்டமி"⟩,    Paksha.krishna⟩,
    ⟨24, ⟨"Navami",      "நவமி"⟩,      Paksha.krishna⟩,
    ⟨25, ⟨"Dashami",     "தசமி"⟩,      Paksha.krishna⟩,
    ⟨26, ⟨"Ekadashi",    "ஏகாதசி"⟩,    Paksha.krishna⟩,
    ⟨27, ⟨"Dwadashi",    "துவாதசி"⟩,   Paksha.krishna⟩,
    ⟨28, ⟨"Trayodashi",  "திரயோதசி"⟩,  Paksha.krishna⟩,
    ⟨29, ⟨"Chaturdashi", "சதுர்தசி"⟩,  Paksha.krishna⟩,
    ⟨30, ⟨"Amavasya",    "அமாவாசை"⟩,   Paksha.krishna⟩ ]

/-- `getTithiConfig` from `config/tithi.ts`. -/
def getTithiConfig (index : ℤ) : Option TithiConfig :=
  TITHIS.find? (fun t => t.index == index)

/-- `getPaksha` from `config/tithi.ts`:
`tithiIndex <= 15 ? PAKSHA.shukla : PAKSHA.krishna`. -/
def getPaksha (tithiIndex : ℤ) : BilingualText :=
  if tithiIndex ≤ 15 then PAKSHA_shukla else PAKSHA_krishna

/-- `getMoonSunElongation` from `engine/tithi.ts`. -/
def getMoonSunElongation (sunLongitude moonLongitude : ℚ) : ℚ :=
  let elongation := moonLongitude - sunLongitude
  if elongation < 0 then elongation + 360 else elongation

/-- `getTithiIndexFromElongation` from `engine/tithi.ts`:
`Math.floor(elongation / TITHI_SPAN) + 1`, clamped to 30. -/
def getTithiIndexFromElongation (elongation : ℚ) : ℤ :=
  let index := ⌊elongation / TITHI_SPAN⌋ + 1
  if 30 < index then 30 else index

/-- `TithiInfo` from `types/panchangam.ts`.  The source stores the end time
as a zone-formatted string (via luxon); the embedding keeps the raw end JD. -/
structure TithiInfo where
  index : ℤ
  name : BilingualText
  paksha : BilingualText
  endJD : ℚ
  nextTithi : BilingualText
deriving DecidableEq

/-- The body of `calculateTithi` from the tithi-config lookup onward, with
the tithi index already computed (the source computes it inline; it is
hoisted into a parameter here).  The `Invalid tithi index` throw becomes
`Except.error`. -/
def calculateTithiWith (sunMoonAt : ℚ → ℚ × ℚ) (julianDay : ℚ)
    (tithiIndex : ℤ) : Except String TithiInfo :=
  match getTithiConfig tithiIndex with
  | none => Except.error "Invalid tithi index"
  | some tithiConfig =>
    let endJD := findTithiEndTime
      (fun jd => getMoonSunElongation (sunMoonAt jd).1 (sunMoonAt jd).2)
      julianDay tithiIndex
    let nextTithiIndex : ℤ := if 30 ≤ tithiIndex then 1 else tithiIndex + 1
    let nextTithiConfig := getTithiConfig nextTithiIndex
    Except.ok
      { index := tithiIndex
        name := tithiConfig.name
        paksha := getPaksha tithiIndex
        endJD := endJD
        nextTithi := (nextTithiConfig.map TithiConfig.name).getD
          ⟨"Unknown", "அறியாத"⟩ }

/-- `calculateTithi` from `engine/tithi.ts`, parametrised by the sun/moon
position function (`getSunMoonPositions` in the source). -/
def calculateTithi (sunMoonAt : ℚ → ℚ × ℚ) (julianDay : ℚ) :
    Except String TithiInfo :=
  calculateTithiWith sunMoonAt julianDay
    (getTithiIndexFromElongation
      (getMoonSunElongation (sunMoonAt julianDay).1 (sunMoonAt julianDay).2))

-- ---------------------------------------------------------------------------
-- Moon rasi and Lagnam calculators (engine/moonRasi.ts, engine/lagnam.ts)
-- ---------------------------------------------------------------------------

/-- JavaScript `Math.round` (round half toward positive infinity). -/
def jsRound (x : ℚ) : ℤ := ⌊x + 1 / 2⌋

/-- `RasiInfo` from `types/panchangam.ts`. -/
structure RasiInfo where
  index : ℤ
  name : BilingualText
  degree : ℚ
deriving DecidableEq

/-- Whether an `Except` value is a success. -/
def isOkE {α : Type} (e : Except String α) : Bool :=
  match e with
  | Except.ok _ => true
  | Except.error _ => false

/-- The body of `calculateMoonRasi` from the rasi-config lookup onward,
with the rasi index already computed (the source computes it inline); the
`Invalid rasi index` throw becomes `Except.error`. -/
def moonRasiAt (moonLongitude : ℚ) (rasiIndex : ℤ) : Except String RasiInfo :=
  match getRasiConfig rasiIndex with
  | none => Except.error "Invalid rasi index"
  | some rasiConfig =>
    Except.ok
      { index := rasiIndex
        name := rasiConfig.name
        degree := (jsRound (getDegreeInRasi moonLongitude * 1000) : ℚ) / 1000 }

/-- `calculateMoonRasi` from `engine/moonRasi.ts`, parametrised by the Moon
longitude function. -/
def calculateMoonRasi (moonLonAt : ℚ → ℚ) (julianDay : ℚ) :
    Except String RasiInfo :=
  moonRasiAt (moonLonAt julianDay) (getRasiIndex (moonLonAt julianDay))

/-- The result record of `getCurrentLagnam` in `engine/lagnam.ts`. -/
structure CurrentLagnam where
  index : ℤ
  name : BilingualText
deriving DecidableEq

/-- The body of `getCurrentLagnam` from the rasi-config lookup onward, with
the rasi index already computed; the `Invalid rasi index` throw becomes
`Except.error`. -/
def lagnamAt (rasiIndex : ℤ) : Except String CurrentLagnam :=
  match getRasiConfig rasiIndex with
  | none => Except.error "Invalid rasi index"
  | some rasiConfig => Except.ok { index := rasiIndex, name := rasiConfig.name }

/-- `getCurrentLagnam` from `engine/lagnam.ts`, parametrised by the
ascendant function (`calculateAscendant` in the source). -/
def getCurrentLagnam (ascendantAt : ℚ → ℚ) (julianDay : ℚ) :
    Except String CurrentLagnam :=
  lagnamAt (getRasiIndex (ascendantAt julianDay))

-- ---------------------------------------------------------------------------
-- Chandrashtama (engine/chandrashtama.ts)
-- ---------------------------------------------------------------------------

/-- `getBirthMoonRasi` from `engine/chandrashtama.ts`. -/
def getBirthMoonRasi (birthNakshatra : String) : Option ℤ :=
  (getNakshatraByName birthNakshatra).map (fun n => getRasiIndex n.startDegree)

/-- `isChandrashtamaActive` from `engine/chandrashtama.ts`. -/
def isChandrashtamaActive (moonLonAt : ℚ → ℚ) (julianDay : ℚ)
    (birthMoonRasi : ℤ) : Bool :=
  let moonLongitude := moonLonAt julianDay
  let currentMoonRasi := getRasiIndex moonLongitude
  let chandrashtamaRasi := (birthMoonRasi - 1 + 7).tmod 12 + 1
  currentMoonRasi == chandrashtamaRasi

/-- `ChandrashtamaInfo` from `types/panchangam.ts`; the source formats
`startTime`/`endTime` through luxon, the embedding keeps the raw JDs. -/
structure ChandrashtamaInfo where
  isActive : Bool
  startTime : ℚ
  endTime : ℚ
  birthNakshatra : BilingualText
  currentMoonRasi : BilingualText
deriving DecidableEq

/-- `calculateChandrashtama` from `engine/chandrashtama.ts`.  The JS falsy
test `if (!birthMoonRasi)` also catches a zero rasi, hence the explicit
`= 0` branch. -/
def calculateChandrashtama (moonLonAt : ℚ → ℚ) (julianDay : ℚ)
    (birthNakshatra : String) : Option ChandrashtamaInfo :=
  match getBirthMoonRasi birthNakshatra with
  | none => none
  | some birthMoonRasi =>
    if birthMoonRasi = 0 then none
    else
      let chandrashtamaRasi := (birthMoonRasi - 1 + 7).tmod 12 + 1
      let chandrashtamaRasiConfig := getRasiConfig chandrashtamaRasi
      let moonLongitude := moonLonAt julianDay
      let currentMoonRasi := getRasiIndex moonLongitude
      let birthNakshatraConfig := getNakshatraByName birthNakshatra
      if currentMoonRasi ≠ chandrashtamaRasi then none
      else
        let chandrashtamaStart :=
          (chandrashtamaRasiConfig.map RasiConfig.startDegree).getD 0
        let chandrashtamaEnd := chandrashtamaStart + RASI_SPAN
        let startJD := findAngleCrossing (julianDay - 3) julianDay
          chandrashtamaStart moonLonAt (1 / 100)
        let endJD := findAngleCrossing julianDay (julianDay + 3)
          (jsMod chandrashtamaEnd 360) moonLonAt (1 / 100)
        some
          { isActive := true
            startTime := startJD
            endTime := endJD
            birthNakshatra := (birthNakshatraConfig.map NakshatraConfig.name).getD
              ⟨birthNakshatra, birthNakshatra⟩
            currentMoonRasi := (chandrashtamaRasiConfig.map RasiConfig.name).getD
              ⟨"Unknown", "அறியாத"⟩ }

-- ---------------------------------------------------------------------------
-- Tamil calendar day (config/tamilCalendar.ts, engine/tamilDate civil rule)
-- ---------------------------------------------------------------------------

/-- `getTamilDay` from `config/tamilCalendar.ts`: the degree-based rule
`Math.floor(normalized % 30) + 1`. -/
def getTamilDay (sunLongitude : ℚ) : ℤ :=
  let normalized := normalize360 sunLongitude
  let degreeInSign := jsMod normalized 30
  ⌊degreeInSign⌋ + 1

/-- The Tamil-day computation performed by `calculatePanchangam` in
`services/panchangamService.ts` (lines 49-53): `getTamilDay` applied to the
sun longitude at the sunrise JD.  The sun-longitude function is a
parameter (it is the trig ephemeris in the source). -/
def tamilDayOfService (sunLonAt : ℚ → ℚ) (sunriseJD : ℚ) : ℤ :=
  getTamilDay (sunLonAt sunriseJD)

/-- `getEffectiveMonthIndex` from the civil-rule Tamil date module
(`calculateTamilDate`): compares the Sun's sign at sunrise and at sunset of
a civil date.  Civil dates are modelled as integers, and the sunrise/sunset
and sun-longitude functions are parameters. -/
def getEffectiveMonthIndex (sunLonAt : ℚ → ℚ) (sunriseOf sunsetOf : ℤ → ℚ)
    (date : ℤ) : ℤ :=
  let sun_rise := sunLonAt (sunriseOf date)
  let sun_set := sunLonAt (sunsetOf date)
  let sign_rise := ⌊sun_rise / 30⌋
  let sign_set := ⌊sun_set / 30⌋
  if sign_rise ≠ sign_set then sign_set.tmod 12 else sign_rise.tmod 12

/-- `calculateTamilDate` (civil sankranti rule): searches up to 35 days back
for the first day whose effective month differs; that offset is the day
number, defaulting to 1. -/
def calculateTamilDate (sunLonAt : ℚ → ℚ) (sunriseOf sunsetOf : ℤ → ℚ)
    (date : ℤ) : ℤ :=
  let currentMonthIndex := getEffectiveMonthIndex sunLonAt sunriseOf sunsetOf date
  match (List.range' 1 35).find? (fun i =>
      getEffectiveMonthIndex sunLonAt sunriseOf sunsetOf (date - (i : ℤ)) !=
        currentMonthIndex) with
  | some i => (i : ℤ)
  | none => 1

-- ---------------------------------------------------------------------------
-- Gowri Neram day segments (engine/muhurta.ts)
-- ---------------------------------------------------------------------------

/-- `TimePeriod` from `types/panchangam.ts` (fields `start`/`end`; the
second is named `endTime` because `end` is a Lean keyword).  The source
stores zone-formatted HH:MM strings; the embedding keeps the raw instants. -/
structure TimePeriod where
  start : ℚ
  endTime : ℚ
deriving DecidableEq, Inhabited

/-- The `'good' | 'bad'` tag of a Gowri period. -/
inductive GowriType where
  | good
  | bad
deriving DecidableEq, Inhabited

/-- `GowriPeriod` from `types/panchangam.ts`. -/
structure GowriPeriod where
  start : ℚ
  endTime : ℚ
  type : GowriType
  name : BilingualText
deriving DecidableEq, Inhabited

/-- `AuspiciousPeriods` from `types/panchangam.ts`. -/
structure AuspiciousPeriods where
  gowriNeram : List GowriPeriod
  nallaNeram : List TimePeriod
deriving DecidableEq

/-- Default used in place of the source's `GOWRI_NAMES[nameIndex]!`
assertion; never reached since `nameIndex < 8`. -/
def defaultGowri : GowriPeriod := ⟨0, 0, GowriType.bad, ⟨"", ""⟩⟩

/-- `GOWRI_GOOD_SEGMENTS` from `engine/muhurta.ts` (a
`Record<number, number[]>`). -/
def GOWRI_GOOD_SEGMENTS (dayOfWeek : ℕ) : Option (List ℕ) :=
  if dayOfWeek = 0 then some [1, 2, 5, 6]
  else if dayOfWeek = 1 then some [3, 4, 7, 8]
  else if dayOfWeek = 2 then some [1, 2, 5, 6]
  else if dayOfWeek = 3 then some [3, 4, 7, 8]
  else if dayOfWeek = 4 then some [1, 2, 5, 6]
  else if dayOfWeek = 5 then some [3, 4, 7, 8]
  else if dayOfWeek = 6 then some [1, 2, 5, 6]
  else none

/-- `GOWRI_NAMES` from `engine/muhurta.ts`. -/
def GOWRI_NAMES : List BilingualText :=
  [ ⟨"Uthira",  "உத்திரம்"⟩,
    ⟨"Chandra", "சந்திரன்"⟩,
    ⟨"Sani",    "சனி"⟩,
    ⟨"Budha",   "புதன்"⟩,
    ⟨"Guru",    "குரு"⟩,
    ⟨"Ravi",    "ரவி"⟩,
    ⟨"Sukra",   "சுக்கிரன்"⟩,
    ⟨"Kuja",    "செவ்வாய்"⟩ ]

/-- `getTimeSegment` from `engine/muhurta.ts`, over raw instants: the
sunrise-to-sunset interval is divided into 8 equal segments. -/
def getTimeSegment (sunriseTime sunsetTime : ℚ) (segment : ℕ) : TimePeriod :=
  let dayDuration := sunsetTime - sunriseTime
  let segmentDuration := dayDuration / 8
  { start := sunriseTime + segmentDuration * ((segment : ℚ) - 1)
    endTime := sunriseTime + segmentDuration * (segment : ℚ) }

/-- `calculateAuspiciousPeriods` from `engine/muhurta.ts`: builds the 8
Gowri segments (tag, planetary name) and filters the good ones into
Nalla Neram.  The weekday (`getDayOfWeek` in the source, via luxon)
is a parameter. -/
def calculateAuspiciousPeriods (sunriseTime sunsetTime : ℚ)
    (dayOfWeek : ℕ) : AuspiciousPeriods :=
  let goodSegments := (GOWRI_GOOD_SEGMENTS dayOfWeek).getD []
  let gowriNeram := (List.range 8).map (fun k =>
    let segment := k + 1
    let period := getTimeSegment sunriseTime sunsetTime segment
    let isGood := goodSegments.contains segment
    let nameIndex := (segment - 1 + dayOfWeek) % 8
    ({ start := period.start
       endTime := period.endTime
       type := if isGood then GowriType.good else GowriType.bad
       name := GOWRI_NAMES.getD nameIndex ⟨"", ""⟩ } : GowriPeriod))
  let nallaNeram := (gowriNeram.filter (fun g => g.type == GowriType.good)).map
    (fun g => ({ start := g.start, endTime := g.endTime } : TimePeriod))
  { gowriNeram := gowriNeram, nallaNeram := nallaNeram }

-- ---------------------------------------------------------------------------
-- Julian day conversions and sunrise/sunset fallbacks (engine/swisseph.ts)
-- ---------------------------------------------------------------------------

/-- A JavaScript `Date` as read through its UTC accessors (`getUTCFullYear`,
`getUTCMonth() + 1`, `getUTCDate`, `getUTCHours`, `getUTCMinutes`,
`getUTCSeconds`). -/
structure JSDate where
  year : ℤ
  month : ℤ
  day : ℤ
  hour : ℤ
  minute : ℤ
  second : ℤ
deriving DecidableEq

/-- `dateToJulianDay` from `engine/swisseph.ts` (Meeus civil-to-JD).  The
decimal constants 365.25, 30.6001 and 1524.5 are the exact rationals
1461/4, 306001/10000 and 3049/2. -/
def dateToJulianDay (date : JSDate) : ℚ :=
  let hour : ℚ := (date.hour : ℚ) + (date.minute : ℚ) / 60 + (date.second : ℚ) / 3600
  let y : ℤ := if date.month ≤ 2 then date.year - 1 else date.year
  let m : ℤ := if date.month ≤ 2 then date.month + 12 else date.month
  let a : ℤ := ⌊(y : ℚ) / 100⌋
  let b : ℤ := 2 - a + ⌊(a : ℚ) / 4⌋
  (⌊(1461 / 4 : ℚ) * ((y : ℚ) + 4716)⌋ : ℚ) +
    (⌊(306001 / 10000 : ℚ) * ((m : ℚ) + 1)⌋ : ℚ) +
    (date.day : ℚ) + hour / 24 + (b : ℚ) - 3049 / 2

/-- `julianDayToDate` from `engine/swisseph.ts` (Meeus JD-to-civil).  The
decimal constants 1867216.25, 36524.25, 122.1 and 30.6001 are the exact
rationals 7468865/4, 146097/4, 1221/10 and 306001/10000. -/
def julianDayToDate (jd : ℚ) : JSDate :=
  let z : ℤ := ⌊jd + 1 / 2⌋
  let f : ℚ := (jd + 1 / 2) - (z : ℚ)
  let a : ℤ :=
    if 2299161 ≤ z then
      let alpha : ℤ := ⌊((z : ℚ) - 7468865 / 4) / (146097 / 4)⌋
      z + 1 + alpha - ⌊(alpha : ℚ) / 4⌋
    else z
  let b : ℤ := a + 1524
  let c : ℤ := ⌊((b : ℚ) - 1221 / 10) / (1461 / 4)⌋
  let d : ℤ := ⌊(1461 / 4 : ℚ) * (c : ℚ)⌋
  let e : ℤ := ⌊((b : ℚ) - (d : ℚ)) / (306001 / 10000)⌋
  let day : ℚ := (b : ℚ) - (d : ℚ) - (⌊(306001 / 10000 : ℚ) * (e : ℚ)⌋ : ℚ) + f
  let month : ℤ := if e < 14 then e - 1 else e - 13
  let year : ℤ := if 2 < month then c - 4716 else c - 4715
  let dayInt : ℤ := ⌊day⌋
  let dayFrac : ℚ := day - (dayInt : ℚ)
  let hours : ℚ := dayFrac * 24
  let hourInt : ℤ := ⌊hours⌋
  let minutes : ℚ := (hours - (hourInt : ℚ)) * 60
  let minuteInt : ℤ := ⌊minutes⌋
  let seconds : ℚ := (minutes - (minuteInt : ℚ)) * 60
  { year := year, month := month, day := dayInt
    hour := hourInt, minute := minuteInt, second := ⌊seconds⌋ }

/-- `calculateSunrise` from `engine/swisseph.ts`.  The external SunCalc
result (`times.sunrise`, absent or NaN when no event exists) is modelled as
an `Option JSDate` oracle.  The fallback sets the civil date's clock to
06:00:00 UTC (`noonDate.setUTCHours(6, 0, 0, 0)`). -/
def calculateSunrise (sunriseOracle : Option JSDate) (jd : ℚ) : ℚ :=
  match sunriseOracle with
  | some t => dateToJulianDay t
  | none =>
    let date := julianDayToDate jd
    dateToJulianDay { date with hour := 6, minute := 0, second := 0 }

/-- `calculateSunset` from `engine/swisseph.ts`; the fallback sets the civil
date's clock to 18:00:00 UTC. -/
def calculateSunset (sunsetOracle : Option JSDate) (jd : ℚ) : ℚ :=
  match sunsetOracle with
  | some t => dateToJulianDay t
  | none =>
    let date := julianDayToDate jd
    dateToJulianDay { date with hour := 18, minute := 0, second := 0 }

-- ---------------------------------------------------------------------------
-- Request validation and the service's Chandrashtama field
-- (routes/panchangam.ts, services/panchangamService.ts)
-- ---------------------------------------------------------------------------

/-- `PanchangamRequest` from `types/panchangam.ts`. -/
structure PanchangamRequest where
  date : String
  latitude : ℚ
  longitude : ℚ
  timezone : String
  birthNakshatra : Option String
deriving DecidableEq

/-- The `^\d{4}-\d{2}-\d{2}$` regex of the zod schema. -/
def isValidDateFormat (s : String) : Bool :=
  match s.data with
  | [y1, y2, y3, y4, h1, m1, m2, h2, d1, d2] =>
    y1.isDigit && y2.isDigit && y3.isDigit && y4.isDigit &&
      (h1 == '-') && m1.isDigit && m2.isDigit &&
      (h2 == '-') && d1.isDigit && d2.isDigit
  | _ => false

/-- `panchangamRequestSchema` from `routes/panchangam.ts`: the zod checks.
`birthNakshatra` is only `z.string().optional()` — no membership check. -/
def panchangamRequestSchemaCheck (r : PanchangamRequest) : Bool :=
  isValidDateFormat r.date &&
    decide (-90 ≤ r.latitude) && decide (r.latitude ≤ 90) &&
    decide (-180 ≤ r.longitude) && decide (r.longitude ≤ 180) &&
    decide (1 ≤ r.timezone.length)

/-- The `chandrashtama` field assembly of `calculatePanchangam`
(`services/panchangamService.ts` lines 80-83): the only place the request's
`birthNakshatra` is consumed. -/
def chandrashtamaField (moonLonAt : ℚ → ℚ) (sunriseJD : ℚ)
    (birthNakshatra : Option String) : Option ChandrashtamaInfo :=
  match birthNakshatra with
  | none => none
  | some n => calculateChandrashtama moonLonAt sunriseJD n

-- ---------------------------------------------------------------------------
-- Evaluation lemmas for the JS arithmetic
-- ---------------------------------------------------------------------------

theorem floor_eq_int {q : ℚ} {n : ℤ} (h1 : (n : ℚ) ≤ q) (h2 : q < (n : ℚ) + 1) :
    ⌊q⌋ = n := by
  rw [Int.floor_eq_iff]
  exact ⟨h1, by exact_mod_cast h2⟩

theorem jsMod_eq_of_nonneg (n : ℤ) {x y r : ℚ} (hn : 0 ≤ n) (hy : 0 < y)
    (h1 : (n : ℚ) * y ≤ x) (h2 : x < ((n : ℚ) + 1) * y) (hr : x - y * n = r) :
    jsMod x y = r := by
  have hq1 : (n : ℚ) ≤ x / y := (le_div_iff₀ hy).mpr h1
  have hq2 : x / y < (n : ℚ) + 1 := (div_lt_iff₀ hy).mpr (by linarith)
  have h0 : (0 : ℚ) ≤ x / y := le_trans (by exact_mod_cast hn) hq1
  have hfl : ⌊x / y⌋ = n := floor_eq_int hq1 hq2
  rw [jsMod, ratTrunc, if_pos h0, hfl, hr]

theorem jsMod_eq_of_neg (n : ℤ) {x y r : ℚ} (hy : 0 < y) (hx : x < 0)
    (h1 : ((n : ℚ) - 1) * y < x) (h2 : x ≤ (n : ℚ) * y) (hr : x - y * n = r) :
    jsMod x y = r := by
  have hq0 : x / y < 0 := div_neg_of_neg_of_pos hx hy
  have hq1 : (n : ℚ) - 1 < x / y := by
    rw [lt_div_iff₀ hy]; linarith
  have hq2 : x / y ≤ (n : ℚ) := by
    rw [div_le_iff₀ hy]; linarith
  have hcl : ⌈x / y⌉ = n := by
    rw [Int.ceil_eq_iff]
    · exact ⟨by exact_mod_cast hq1, hq2⟩
  rw [jsMod, ratTrunc, if_neg (not_le.mpr hq0), hcl, hr]

theorem jsMod_nonneg_lt {x y : ℚ} (hx : 0 ≤ x) (hy : 0 < y) :
    0 ≤ jsMod x y ∧ jsMod x y < y := by
  rw [jsMod, ratTrunc, if_pos (div_nonneg hx hy.le)]
  have h1 := Int.floor_le (x / y)
  have h2 := Int.lt_floor_add_one (x / y)
  have key : x / y * y = x := div_mul_cancel₀ x hy.ne'
  constructor
  · have := mul_le_mul_of_nonneg_right h1 hy.le
    rw [key] at this
    nlinarith
  · have := mul_lt_mul_of_pos_right h2 hy
    rw [key] at this
    nlinarith

theorem jsMod_neg_bounds {x y : ℚ} (hx : x < 0) (hy : 0 < y) :
    -y < jsMod x y ∧ jsMod x y ≤ 0 := by
  have hq0 : x / y < 0 := div_neg_of_neg_of_pos hx hy
  rw [jsMod, ratTrunc, if_neg (not_le.mpr hq0)]
  have h1 := Int.le_ceil (x / y)
  have h2 := Int.ceil_lt_add_one (x / y)
  have key : x / y * y = x := div_mul_cancel₀ x hy.ne'
  constructor
  · have := mul_lt_mul_of_pos_right h2 hy
    rw [add_mul, key] at this
    nlinarith
  · have := mul_le_mul_of_nonneg_right h1 hy.le
    rw [key] at this
    nlinarith

theorem normalize360_bounds (x : ℚ) :
    0 ≤ normalize360 x ∧ normalize360 x < 360 := by
  rw [normalize360]
  rcases le_or_lt 0 x with hx | hx
  · obtain ⟨h1, _⟩ := jsMod_nonneg_lt hx (by norm_num : (0 : ℚ) < 360)
    exact jsMod_nonneg_lt (by linarith) (by norm_num)
  · obtain ⟨h1, _⟩ := jsMod_neg_bounds hx (by norm_num : (0 : ℚ) < 360)
    exact jsMod_nonneg_lt (by linarith) (by norm_num)

theorem getRasiIndex_bounds (x : ℚ) :
    1 ≤ getRasiIndex x ∧ getRasiIndex x ≤ 12 := by
  obtain ⟨h1, h2⟩ := normalize360_bounds x
  rw [getRasiIndex, RASI_SPAN]
  have hf1 : 0 ≤ ⌊normalize360 x / 30⌋ :=
    Int.floor_nonneg.mpr (div_nonneg h1 (by norm_num))
  have hf2 : ⌊normalize360 x / 30⌋ < 12 := by
    rw [Int.floor_lt]
    push_cast
    rw [div_lt_iff₀ (by norm_num : (0 : ℚ) < 30)]
    linarith
  omega

theorem getRasiConfig_isSome {i : ℤ} (h1 : 1 ≤ i) (h2 : i ≤ 12) :
    (getRasiConfig i).isSome = true := by
  interval_cases i <;> rfl

-- ---------------------------------------------------------------------------
-- Bisection analysis
-- ---------------------------------------------------------------------------

theorem bisect_correct (f : ℚ → ℚ) (t tol L lo hi : ℚ) (htol : 0 < tol)
    (hL : ∀ x y, lo ≤ x → x ≤ y → y ≤ hi →
      |arcDiff (f y) t - arcDiff (f x) t| ≤ L * (y - x)) :
    ∀ (n : ℕ) (low high : ℚ), lo ≤ low → high ≤ hi → low < high →
      arcDiff (f low) t < 0 → 0 ≤ arcDiff (f high) t →
      L * (high - low) < tol * 2 ^ (n + 1) →
      low < bisect f t tol n low high ∧ bisect f t tol n low high < high ∧
        |arcDiff (f (bisect f t tol n low high)) t| < tol := by
  intro n
  induction n with
  | zero =>
    intro low high hlo hhi hlh hglow hghigh hgap
    simp only [bisect]
    refine ⟨by linarith, by linarith, ?_⟩
    have hm1 : low ≤ (low + high) / 2 := by linarith
    have hm2 : (low + high) / 2 ≤ high := by linarith
    have hup : arcDiff (f ((low + high) / 2)) t - arcDiff (f low) t ≤
        L * ((low + high) / 2 - low) :=
      le_trans (le_abs_self _) (hL low ((low + high) / 2) hlo hm1 (by linarith))
    have hdn : arcDiff (f high) t - arcDiff (f ((low + high) / 2)) t ≤
        L * (high - (low + high) / 2) :=
      le_trans (le_abs_self _) (hL ((low + high) / 2) high (by linarith) hm2 hhi)
    have e1 : L * ((low + high) / 2 - low) = L * (high - low) / 2 := by ring
    have e2 : L * (high - (low + high) / 2) = L * (high - low) / 2 := by ring
    have hgap0 : L * (high - low) < 2 * tol := by
      have h2p : (2 : ℚ) ^ (0 + 1) = 2 := by norm_num
      rw [h2p] at hgap
      linarith
    rw [abs_lt]
    constructor <;> nlinarith
  | succ n ih =>
    intro low high hlo hhi hlh hglow hghigh hgap
    simp only [bisect]
    split_ifs with h1 h2
    · exact ⟨by linarith, by linarith, h1⟩
    · have hmidpos : 0 ≤ arcDiff (f ((low + high) / 2)) t := by
        by_contra hneg
        push_neg at hneg
        have := mul_pos_of_neg_of_neg hglow hneg
        linarith
      have hgap2 : L * ((low + high) / 2 - low) < tol * 2 ^ (n + 1) := by
        have h2p : (2 : ℚ) ^ (n + 1 + 1) = 2 * 2 ^ (n + 1) := by ring
        rw [h2p] at hgap
        have e1 : L * ((low + high) / 2 - low) = L * (high - low) / 2 := by ring
        rw [e1]
        linarith
      have hrec := ih low ((low + high) / 2) hlo
        (le_trans (by linarith) hhi) (by linarith) hglow hmidpos hgap2
      exact ⟨hrec.1, by linarith [hrec.2.1], hrec.2.2⟩
    · have habs : tol ≤ |arcDiff (f ((low + high) / 2)) t| := not_lt.mp h1
      have hmidneg : arcDiff (f ((low + high) / 2)) t < 0 := by
        by_contra hpos
        push_neg at hpos
        rw [abs_of_nonneg hpos] at habs
        exact h2 (mul_neg_of_neg_of_pos hglow (by linarith))
      have hgap2 : L * (high - (low + high) / 2) < tol * 2 ^ (n + 1) := by
        have h2p : (2 : ℚ) ^ (n + 1 + 1) = 2 * 2 ^ (n + 1) := by ring
        rw [h2p] at hgap
        have e2 : L * (high - (low + high) / 2) = L * (high - low) / 2 := by ring
        rw [e2]
        linarith
      have hrec := ih ((low + high) / 2) high (le_trans hlo (by linarith))
        hhi (by linarith) hmidneg hghigh hgap2
      exact ⟨by linarith [hrec.1], hrec.2.1, hrec.2.2⟩

theorem findAngleCrossing_correct (f : ℚ → ℚ) (t tol L lo hi : ℚ)
    (hlt : lo < hi) (h : BracketOK f lo hi t L tol) :
    lo < findAngleCrossing lo hi t f tol ∧
      findAngleCrossing lo hi t f tol < hi ∧
      |arcDiff (f (findAngleCrossing lo hi t f tol)) t| < tol := by
  obtain ⟨h1, h2, h3, h4, h5⟩ := h
  exact bisect_correct f t tol L lo hi h5 h3 50 lo hi le_rfl le_rfl hlt h1 h2 h4

theorem arcDiff_eq_sub {c t : ℚ} (h1 : c - t ≤ 180) (h2 : -180 ≤ c - t) :
    arcDiff c t = c - t := by
  rw [arcDiff]
  simp only [not_lt.mpr h1, if_false, if_neg (not_lt.mpr h2)]

theorem bisect_tol_or_iterate (f : ℚ → ℚ) (t tol : ℚ) :
    ∀ (n : ℕ) (low high : ℚ),
      |arcDiff (f (bisect f t tol n low high)) t| < tol ∨
      bisect f t tol n low high =
        (((bisectStep f t)^[n] (low, high)).1 +
          ((bisectStep f t)^[n] (low, high)).2) / 2 := by
  intro n
  induction n with
  | zero =>
    intro low high
    exact Or.inr rfl
  | succ n ih =>
    intro low high
    rw [Function.iterate_succ_apply]
    simp only [bisect]
    split_ifs with h1 h2
    · exact Or.inl h1
    · have hstep : bisectStep f t (low, high) = (low, (low + high) / 2) := by
        rw [bisectStep, if_pos h2]
      rw [hstep]
      exact ih low ((low + high) / 2)
    · have hstep : bisectStep f t (low, high) = ((low + high) / 2, high) := by
        rw [bisectStep, if_neg h2]
      rw [hstep]
      exact ih ((low + high) / 2) high

-- ---------------------------------------------------------------------------
-- Claims
-- ---------------------------------------------------------------------------

/-- C1: for every limb engine (tithi, nakshatra, yoga, karana) invoked at a
reference JD whose search bracket satisfies the solver contract of the spec
(§4.3: the wraparound difference to the next boundary
`limbIndex * span mod 360` is Lipschitz on the bracket and changes sign over
it), the returned end instant is strictly after the reference JD and the
driving angle at that instant is within the 0.001° tolerance passed to
`findAngleCrossing` of the next boundary. -/
theorem limbEnd_after_ref_within_tolerance
    (fT fN fY fK : ℚ → ℚ) (refJD : ℚ) (iT iN iY iK : ℤ) (LT LN LY LK : ℚ)
    (hT : BracketOK fT refJD (refJD + 2)
      (jsMod ((iT : ℚ) * TITHI_SPAN) 360) LT (1 / 1000))
    (hN : BracketOK fN refJD (refJD + 2)
      (jsMod ((iN : ℚ) * NAKSHATRA_SPAN) 360) LN (1 / 1000))
    (hY : BracketOK fY refJD (refJD + 2)
      (jsMod ((iY : ℚ) * YOGA_SPAN) 360) LY (1 / 1000))
    (hK : BracketOK fK refJD (refJD + 1)
      (jsMod ((iK : ℚ) * KARANA_SPAN) 360) LK (1 / 1000)) :
    (refJD < findTithiEndTime fT refJD iT ∧
      |arcDiff (fT (findTithiEndTime fT refJD iT))
        (jsMod ((iT : ℚ) * TITHI_SPAN) 360)| < 1 / 1000) ∧
    (refJD < findNakshatraEndTime fN refJD iN ∧
      |arcDiff (fN (findNakshatraEndTime fN refJD iN))
        (jsMod ((iN : ℚ) * NAKSHATRA_SPAN) 360)| < 1 / 1000) ∧
    (refJD < findYogaEndTime fY refJD iY ∧
      |arcDiff (fY (findYogaEndTime fY refJD iY))
        (jsMod ((iY : ℚ) * YOGA_SPAN) 360)| < 1 / 1000) ∧
    (refJD < findKaranaEndTime fK refJD iK ∧
      |arcDiff (fK (findKaranaEndTime fK refJD iK))
        (jsMod ((iK : ℚ) * KARANA_SPAN) 360)| < 1 / 1000) := by
  have HT := findAngleCrossing_correct fT (jsMod ((iT : ℚ) * TITHI_SPAN) 360)
    (1 / 1000) LT refJD (refJD + 2) (by linarith) hT
  have HN := findAngleCrossing_correct fN (jsMod ((iN : ℚ) * NAKSHATRA_SPAN) 360)
    (1 / 1000) LN refJD (refJD + 2) (by linarith) hN
  have HY := findAngleCrossing_correct fY (jsMod ((iY : ℚ) * YOGA_SPAN) 360)
    (1 / 1000) LY refJD (refJD + 2) (by linarith) hY
  have HK := findAngleCrossing_correct fK (jsMod ((iK : ℚ) * KARANA_SPAN) 360)
    (1 / 1000) LK refJD (refJD + 1) (by linarith) hK
  exact ⟨⟨HT.1, HT.2.2⟩, ⟨HN.1, HN.2.2⟩, ⟨HY.1, HY.2.2⟩, ⟨HK.1, HK.2.2⟩⟩

/-- Witness for C1 at concrete inputs: index 1 for each limb, reference
JD 0, and linear angle functions crossing the respective boundaries inside
the bracket. -/
theorem limbEnd_after_ref_within_tolerance_witness :
    0 < findTithiEndTime (fun jd => 11 + jd) 0 1 ∧
    0 < findNakshatraEndTime (fun jd => 37 / 3 + jd) 0 1 ∧
    0 < findYogaEndTime (fun jd => 37 / 3 + jd) 0 1 ∧
    0 < findKaranaEndTime (fun jd => 11 / 2 + jd) 0 1 := by
  have eT : jsMod (((1 : ℤ) : ℚ) * TITHI_SPAN) 360 = 12 :=
    jsMod_eq_of_nonneg 0 le_rfl (by norm_num) (by norm_num [TITHI_SPAN])
      (by norm_num [TITHI_SPAN]) (by norm_num [TITHI_SPAN])
  have eN : jsMod (((1 : ℤ) : ℚ) * NAKSHATRA_SPAN) 360 = 40 / 3 :=
    jsMod_eq_of_nonneg 0 le_rfl (by norm_num) (by norm_num [NAKSHATRA_SPAN])
      (by norm_num [NAKSHATRA_SPAN]) (by norm_num [NAKSHATRA_SPAN])
  have eY : jsMod (((1 : ℤ) : ℚ) * YOGA_SPAN) 360 = 40 / 3 :=
    jsMod_eq_of_nonneg 0 le_rfl (by norm_num) (by norm_num [YOGA_SPAN])
      (by norm_num [YOGA_SPAN]) (by norm_num [YOGA_SPAN])
  have eK : jsMod (((1 : ℤ) : ℚ) * KARANA_SPAN) 360 = 6 :=
    jsMod_eq_of_nonneg 0 le_rfl (by norm_num) (by norm_num [KARANA_SPAN])
      (by norm_num [KARANA_SPAN]) (by norm_num [KARANA_SPAN])
  have hT : BracketOK (fun jd => 11 + jd) 0 (0 + 2)
      (jsMod (((1 : ℤ) : ℚ) * TITHI_SPAN) 360) 1 (1 / 1000) := by
    rw [eT]
    refine ⟨?_, ?_, ?_, by norm_num, by norm_num⟩
    · show arcDiff (11 + 0) 12 < 0
      rw [arcDiff_eq_sub (by norm_num) (by norm_num)]
      norm_num
    · show 0 ≤ arcDiff (11 + (0 + 2)) 12
      rw [arcDiff_eq_sub (by norm_num) (by norm_num)]
      norm_num
    · intro x y hx hxy hy
      show |arcDiff (11 + y) 12 - arcDiff (11 + x) 12| ≤ 1 * (y - x)
      rw [arcDiff_eq_sub (by linarith) (by linarith),
        arcDiff_eq_sub (by linarith) (by linarith)]
      rw [show (11 + y - 12) - (11 + x - 12) = y - x by ring,
        abs_of_nonneg (by linarith)]
      linarith
  have hN : BracketOK (fun jd => 37 / 3 + jd) 0 (0 + 2)
      (jsMod (((1 : ℤ) : ℚ) * NAKSHATRA_SPAN) 360) 1 (1 / 1000) := by
    rw [eN]
    refine ⟨?_, ?_, ?_, by norm_num, by norm_num⟩
    · show arcDiff (37 / 3 + 0) (40 / 3) < 0
      rw [arcDiff_eq_sub (by norm_num) (by norm_num)]
      norm_num
    · show 0 ≤ arcDiff (37 / 3 + (0 + 2)) (40 / 3)
      rw [arcDiff_eq_sub (by norm_num) (by norm_num)]
      norm_num
    · intro x y hx hxy hy
      show |arcDiff (37 / 3 + y) (40 / 3) - arcDiff (37 / 3 + x) (40 / 3)| ≤
        1 * (y - x)
      rw [arcDiff_eq_sub (by linarith) (by linarith),
        arcDiff_eq_sub (by linarith) (by linarith)]
      rw [show (37 / 3 + y - 40 / 3) - (37 / 3 + x - 40 / 3) = y - x by ring,
        abs_of_nonneg (by linarith)]
      linarith
  have hY : BracketOK (fun jd => 37 / 3 + jd) 0 (0 + 2)
      (jsMod (((1 : ℤ) : ℚ) * YOGA_SPAN) 360) 1 (1 / 1000) := by
    rw [eY]
    refine ⟨?_, ?_, ?_, by norm_num, by norm_num⟩
    · show arcDiff (37 / 3 + 0) (40 / 3) < 0
      rw [arcDiff_eq_sub (by norm_num) (by norm_num)]
      norm_num
    · show 0 ≤ arcDiff (37 / 3 + (0 + 2)) (40 / 3)
      rw [arcDiff_eq_sub (by norm_num) (by norm_num)]
      norm_num
    · intro x y hx hxy hy
      show |arcDiff (37 / 3 + y) (40 / 3) - arcDiff (37 / 3 + x) (40 / 3)| ≤
        1 * (y - x)
      rw [arcDiff_eq_sub (by linarith) (by linarith),
        arcDiff_eq_sub (by linarith) (by linarith)]
      rw [show (37 / 3 + y - 40 / 3) - (37 / 3 + x - 40 / 3) = y - x by ring,
        abs_of_nonneg (by linarith)]
      linarith
  have hK : BracketOK (fun jd => 11 / 2 + jd) 0 (0 + 1)
      (jsMod (((1 : ℤ) : ℚ) * KARANA_SPAN) 360) 1 (1 / 1000) := by
    rw [eK]
    refine ⟨?_, ?_, ?_, by norm_num, by norm_num⟩
    · show arcDiff (11 / 2 + 0) 6 < 0
      rw [arcDiff_eq_sub (by norm_num) (by norm_num)]
      norm_num
    · show 0 ≤ arcDiff (11 / 2 + (0 + 1)) 6
      rw [arcDiff_eq_sub (by norm_num) (by norm_num)]
      norm_num
    · intro x y hx hxy hy
      show |arcDiff (11 / 2 + y) 6 - arcDiff (11 / 2 + x) 6| ≤ 1 * (y - x)
      rw [arcDiff_eq_sub (by linarith) (by linarith),
        arcDiff_eq_sub (by linarith) (by linarith)]
      rw [show (11 / 2 + y - 6) - (11 / 2 + x - 6) = y - x by ring,
        abs_of_nonneg (by linarith)]
      linarith
  have H := limbEnd_after_ref_within_tolerance (fun jd => 11 + jd)
    (fun jd => 37 / 3 + jd) (fun jd => 37 / 3 + jd) (fun jd => 11 / 2 + jd)
    0 1 1 1 1 1 1 1 1 hT hN hY hK
  exact ⟨H.1.1, H.2.1.1, H.2.2.1.1, H.2.2.2.1⟩

/-- C5: `findAngleCrossing` performs at most 50 bisection iterations.
Either some examined midpoint has wraparound difference below the tolerance
in absolute value — then that midpoint is returned (the early return), and
the returned value satisfies the tolerance bound — or the bracket is halved
exactly 50 times by `bisectStep` and the final midpoint is returned.  The
function is total: no error is raised on hitting the iteration cap. -/
theorem findAngleCrossing_cap_behavior (startJD endJD targetAngle tolerance : ℚ)
    (getAngle : ℚ → ℚ) :
    |arcDiff (getAngle (findAngleCrossing startJD endJD targetAngle getAngle
      tolerance)) targetAngle| < tolerance ∨
    findAngleCrossing startJD endJD targetAngle getAngle tolerance =
      (((bisectStep getAngle targetAngle)^[50] (startJD, endJD)).1 +
        ((bisectStep getAngle targetAngle)^[50] (startJD, endJD)).2) / 2 :=
  bisect_tol_or_iterate getAngle targetAngle tolerance 50 startJD endJD

/-- C6: the slot-to-karana mapping sends slot 1 to Kimstughna (fixed),
slots 58/59/60 to Shakuni/Chatushpada/Naga (fixed), and every slot
`n ∈ 2..57` to the movable karana at position `(n - 2) mod 7` of the cycle
Bava, Balava, Kaulava, Taitila, Gara, Vanija, Vishti — so slot 2 is Bava. -/
theorem karana_slot_mapping (n : ℤ) (h1 : 2 ≤ n) (h2 : n ≤ 57) :
    getKaranaByNumber n =
      MOVABLE_KARANAS.getD ((n - 2).tmod 7).toNat defaultKaranaConfig ∧
    (getKaranaByNumber n).type = KaranaType.movable ∧
    (getKaranaByNumber 2).name.en = "Bava" ∧
    ((getKaranaByNumber 1).name.en = "Kimstughna" ∧
      (getKaranaByNumber 1).type = KaranaType.fixed) ∧
    ((getKaranaByNumber 58).name.en = "Shakuni" ∧
      (getKaranaByNumber 58).type = KaranaType.fixed) ∧
    ((getKaranaByNumber 59).name.en = "Chatushpada" ∧
      (getKaranaByNumber 59).type = KaranaType.fixed) ∧
    ((getKaranaByNumber 60).name.en = "Naga" ∧
      (getKaranaByNumber 60).type = KaranaType.fixed) := by
  interval_cases n <;> decide

/-- Witness for C6 at slot 9 (a movable slot: position `(9 - 2) mod 7 = 0`,
i.e. Bava). -/
theorem karana_slot_mapping_witness :
    getKaranaByNumber 9 =
      MOVABLE_KARANAS.getD (((9 : ℤ) - 2).tmod 7).toNat defaultKaranaConfig ∧
    (getKaranaByNumber 9).type = KaranaType.movable :=
  ⟨(karana_slot_mapping 9 (by norm_num) (by norm_num)).1,
    (karana_slot_mapping 9 (by norm_num) (by norm_num)).2.1⟩

/-- C7: for a recognized birth nakshatra, `calculateChandrashtama` returns a
non-null record exactly when the transiting Moon's rasi at the reference JD
equals the Chandrashtama rasi `((birthMoonRasi - 1 + 7) mod 12) + 1`, where
the birth Moon rasi is the rasi of the nakshatra's start degree; the
returned record is marked active.  Otherwise it returns null. -/
theorem chandrashtama_active_iff (moonLonAt : ℚ → ℚ) (julianDay : ℚ)
    (name : String) (cfg : NakshatraConfig)
    (h : getNakshatraByName name = some cfg) :
    ((calculateChandrashtama moonLonAt julianDay name).isSome = true ↔
      getRasiIndex (moonLonAt julianDay) =
        (getRasiIndex cfg.startDegree - 1 + 7).tmod 12 + 1) ∧
    ∀ info, calculateChandrashtama moonLonAt julianDay name = some info →
      info.isActive = true := by
  have hnz : ¬ getRasiIndex cfg.startDegree = 0 := by
    have := (getRasiIndex_bounds cfg.startDegree).1
    omega
  have hb : getBirthMoonRasi name = some (getRasiIndex cfg.startDegree) := by
    rw [getBirthMoonRasi, h, Option.map_some']
  by_cases hc : getRasiIndex (moonLonAt julianDay) =
      (getRasiIndex cfg.startDegree - 1 + 7).tmod 12 + 1
  · constructor
    · simp only [calculateChandrashtama, hb, if_neg hnz,
        if_neg (not_not_intro hc)]
      simp [hc]
    · intro info hinfo
      simp only [calculateChandrashtama, hb, if_neg hnz,
        if_neg (not_not_intro hc)] at hinfo
      rw [← Option.some.inj hinfo]
  · constructor
    · simp only [calculateChandrashtama, hb, if_neg hnz, if_pos hc]
      simp [hc]
    · intro info hinfo
      simp only [calculateChandrashtama, hb, if_neg hnz, if_pos hc] at hinfo
      exact absurd hinfo (by simp)

/-- Witness for C7: birth nakshatra Rohini (start degree 40, birth Moon rasi
2 Vrishabha, Chandrashtama rasi 9 Dhanu) with the Moon at longitude 250
(rasi 9): the condition is active, so the record is non-null. -/
theorem chandrashtama_active_iff_witness :
    (calculateChandrashtama (fun _ => 250) 0 "Rohini").isSome = true := by
  have h : getNakshatraByName "Rohini" =
      some ⟨4, ⟨"Rohini", "ரோகிணி"⟩, ⟨"Moon", "சந்திரன்"⟩, 40⟩ := rfl
  refine (chandrashtama_active_iff (fun _ => 250) 0 "Rohini" _ h).1.mpr ?_
  show getRasiIndex 250 = (getRasiIndex 40 - 1 + 7).tmod 12 + 1
  have e1 : jsMod (250 : ℚ) 360 = 250 :=
    jsMod_eq_of_nonneg 0 le_rfl (by norm_num) (by norm_num) (by norm_num)
      (by norm_num)
  have e2 : jsMod ((250 : ℚ) + 360) 360 = 250 :=
    jsMod_eq_of_nonneg 1 (by norm_num) (by norm_num) (by norm_num)
      (by norm_num) (by norm_num)
  have hn250 : normalize360 250 = 250 := by
    rw [normalize360, e1, e2]
  have h250 : getRasiIndex 250 = 9 := by
    rw [getRasiIndex, hn250, RASI_SPAN,
      floor_eq_int (show ((8 : ℤ) : ℚ) ≤ 250 / 30 by norm_num) (by norm_num)]
    decide
  have e3 : jsMod (40 : ℚ) 360 = 40 :=
    jsMod_eq_of_nonneg 0 le_rfl (by norm_num) (by norm_num) (by norm_num)
      (by norm_num)
  have e4 : jsMod ((40 : ℚ) + 360) 360 = 40 :=
    jsMod_eq_of_nonneg 1 (by norm_num) (by norm_num) (by norm_num)
      (by norm_num) (by norm_num)
  have hn40 : normalize360 40 = 40 := by
    rw [normalize360, e3, e4]
  have h40 : getRasiIndex 40 = 2 := by
    rw [getRasiIndex, hn40, RASI_SPAN,
      floor_eq_int (show ((1 : ℤ) : ℚ) ≤ 40 / 30 by norm_num) (by norm_num)]
    decide
  rw [h250, h40]
  decide

/-- C8: for every weekday `w ∈ 0..6` (0 = Sunday) the Gowri Neram output has
exactly 8 segments in order; segment `s = k + 1` is tagged good iff
`s ∈ {1,2,5,6}` on Sunday/Tuesday/Thursday/Saturday and iff `s ∈ {3,4,7,8}`
on Monday/Wednesday/Friday; segment `s` bears the planetary name at index
`(s - 1 + w) mod 8` of the fixed 8-entry cycle; and Nalla Neram is exactly
the good-tagged subset. -/
theorem gowri_segments_spec (sunriseTime sunsetTime : ℚ) (w : ℕ) (hw : w ≤ 6) :
    (calculateAuspiciousPeriods sunriseTime sunsetTime w).gowriNeram.length = 8 ∧
    (∀ k, k < 8 → (w = 0 ∨ w = 2 ∨ w = 4 ∨ w = 6) →
      (((calculateAuspiciousPeriods sunriseTime sunsetTime w).gowriNeram.getD k
          defaultGowri).type = GowriType.good ↔
        (k + 1 = 1 ∨ k + 1 = 2 ∨ k + 1 = 5 ∨ k + 1 = 6))) ∧
    (∀ k, k < 8 → (w = 1 ∨ w = 3 ∨ w = 5) →
      (((calculateAuspiciousPeriods sunriseTime sunsetTime w).gowriNeram.getD k
          defaultGowri).type = GowriType.good ↔
        (k + 1 = 3 ∨ k + 1 = 4 ∨ k + 1 = 7 ∨ k + 1 = 8))) ∧
    (∀ k, k < 8 →
      ((calculateAuspiciousPeriods sunriseTime sunsetTime w).gowriNeram.getD k
          defaultGowri).name = GOWRI_NAMES.getD ((k + w) % 8) ⟨"", ""⟩) ∧
    (calculateAuspiciousPeriods sunriseTime sunsetTime w).nallaNeram =
      ((calculateAuspiciousPeriods sunriseTime sunsetTime w).gowriNeram.filter
        (fun g => g.type == GowriType.good)).map
        (fun g => ({ start := g.start, endTime := g.endTime } : TimePeriod)) := by
  interval_cases w <;>
    exact ⟨rfl,
      fun k hk hc => by interval_cases k <;>
        first
          | exact iff_of_true rfl (by decide)
          | exact iff_of_false (ne_of_beq_false rfl) (by decide)
          | exact absurd hc (by decide),
      fun k hk hc => by interval_cases k <;>
        first
          | exact iff_of_true rfl (by decide)
          | exact iff_of_false (ne_of_beq_false rfl) (by decide)
          | exact absurd hc (by decide),
      fun k hk => by interval_cases k <;> rfl,
      rfl⟩

/-- Witness for C8 on a Sunday (`w = 0`): 8 segments, and segment 1 is
tagged good. -/
theorem gowri_segments_spec_witness :
    (calculateAuspiciousPeriods 0 8 0).gowriNeram.length = 8 ∧
    (((calculateAuspiciousPeriods 0 8 0).gowriNeram.getD 0
        defaultGowri).type = GowriType.good ↔
      (0 + 1 = 1 ∨ 0 + 1 = 2 ∨ 0 + 1 = 5 ∨ 0 + 1 = 6)) :=
  ⟨(gowri_segments_spec 0 8 0 (by norm_num)).1,
    (gowri_segments_spec 0 8 0 (by norm_num)).2.1 0 (by norm_num)
      (Or.inl rfl)⟩

/-- C9: every tithi record produced by `calculateTithi` has paksha shukla
if and only if its index is at most 15. -/
theorem tithi_paksha_consistency (sunMoonAt : ℚ → ℚ × ℚ) (julianDay : ℚ)
    (info : TithiInfo)
    (h : calculateTithi sunMoonAt julianDay = Except.ok info) :
    info.paksha = PAKSHA_shukla ↔ info.index ≤ 15 := by
  rw [calculateTithi] at h
  generalize getTithiIndexFromElongation
    (getMoonSunElongation (sunMoonAt julianDay).1 (sunMoonAt julianDay).2) =
    i at h
  rcases hc : getTithiConfig i with - | cfg
  · rw [calculateTithiWith, hc] at h
    exact absurd h (by simp)
  · rw [calculateTithiWith, hc] at h
    obtain rfl := Except.ok.inj h
    show getPaksha i = PAKSHA_shukla ↔ i ≤ 15
    rw [getPaksha]
    split_ifs with hle
    · simp [hle]
    · constructor
      · intro hk
        exact absurd hk (by decide)
      · intro hi
        exact absurd hi hle

/-- Witness for C9: constant sun/moon positions with elongation just below
the 108° boundary of tithi 9 (Navami, shukla paksha). -/
theorem tithi_paksha_consistency_witness :
    ({ index := 9, name := ⟨"Navami", "நவமி"⟩, paksha := PAKSHA_shukla,
       endJD := 1, nextTithi := ⟨"Dashami", "தசமி"⟩ } : TithiInfo).paksha =
      PAKSHA_shukla := by
  have helong : getMoonSunElongation (0 : ℚ) (215999 / 2000) =
      215999 / 2000 := by
    rw [getMoonSunElongation]
    norm_num
  have hidx : getTithiIndexFromElongation (215999 / 2000) = 9 := by
    rw [getTithiIndexFromElongation, TITHI_SPAN,
      floor_eq_int (show ((8 : ℤ) : ℚ) ≤ 215999 / 2000 / 12 by norm_num)
        (by norm_num)]
    norm_num
  have htar : jsMod (((9 : ℤ) : ℚ) * TITHI_SPAN) 360 = 108 :=
    jsMod_eq_of_nonneg 0 le_rfl (by norm_num) (by norm_num [TITHI_SPAN])
      (by norm_num [TITHI_SPAN]) (by norm_num [TITHI_SPAN])
  have harc : arcDiff (215999 / 2000) 108 = -(1 / 2000) := by
    rw [arcDiff]
    norm_num
  have habs : |(-(1 / 2000) : ℚ)| = 1 / 2000 := by
    rw [abs_neg, abs_of_pos (show (0 : ℚ) < 1 / 2000 by norm_num)]
  have hend : findTithiEndTime (fun _ => 215999 / 2000) 0 9 = 1 := by
    rw [findTithiEndTime, htar, findAngleCrossing,
      show (50 : ℕ) = 49 + 1 from rfl, bisect]
    norm_num [harc, habs]
  have hcalc : calculateTithi (fun _ => ((0 : ℚ), (215999 : ℚ) / 2000)) 0 =
      Except.ok (⟨9, ⟨"Navami", "நவமி"⟩, PAKSHA_shukla, 1,
        ⟨"Dashami", "தசமி"⟩⟩ : TithiInfo) := by
    rw [calculateTithi]
    have hcfg9 : getTithiConfig 9 =
        some ⟨9, ⟨"Navami", "நவமி"⟩, Paksha.shukla⟩ := rfl
    dsimp only
    simp only [helong, hidx]
    rw [calculateTithiWith, hcfg9]
    dsimp only
    simp only [helong]
    rw [hend]
    rfl
  exact (tithi_paksha_consistency (fun _ => ((0 : ℚ), (215999 : ℚ) / 2000)) 0 _
    hcalc).mpr (by decide)

/-- C10: for every rational longitude (finite doubles are rationals),
including negative values and values at or above 360, `getRasiIndex` lands
in 1..12; consequently the rasi-table lookup succeeds, and the
`Invalid rasi index` error branches of the Moon-rasi and Lagnam calculators
are unreachable for every ephemeris function and instant. -/
theorem getRasiIndex_range_safe (x : ℚ) (moonLonAt ascendantAt : ℚ → ℚ)
    (jd : ℚ) :
    1 ≤ getRasiIndex x ∧ getRasiIndex x ≤ 12 ∧
    (getRasiConfig (getRasiIndex x)).isSome = true ∧
    isOkE (calculateMoonRasi moonLonAt jd) = true ∧
    isOkE (getCurrentLagnam ascendantAt jd) = true := by
  obtain ⟨h1, h2⟩ := getRasiIndex_bounds x
  refine ⟨h1, h2, getRasiConfig_isSome h1 h2, ?_, ?_⟩
  · obtain ⟨hm1, hm2⟩ := getRasiIndex_bounds (moonLonAt jd)
    obtain ⟨cfg, hcfg⟩ :=
      Option.isSome_iff_exists.mp (getRasiConfig_isSome hm1 hm2)
    rw [calculateMoonRasi, moonRasiAt, hcfg]
    rfl
  · obtain ⟨ha1, ha2⟩ := getRasiIndex_bounds (ascendantAt jd)
    obtain ⟨cfg, hcfg⟩ :=
      Option.isSome_iff_exists.mp (getRasiConfig_isSome ha1 ha2)
    rw [getCurrentLagnam, lagnamAt, hcfg]
    rfl

-- ---------------------------------------------------------------------------
-- C2: polar fallback sentinels
-- ---------------------------------------------------------------------------

theorem dateToJulianDay_hour_shift (d : JSDate) (a b : ℤ) :
    dateToJulianDay { d with hour := a, minute := 0, second := 0 } -
      dateToJulianDay { d with hour := b, minute := 0, second := 0 } =
      ((a : ℚ) - (b : ℚ)) / 24 := by
  simp only [dateToJulianDay]
  push_cast
  ring

/-- C2 counterexample: at the 2025-06-21 polar no-event input of scenario
S6, the no-sunrise/no-sunset fallbacks return the 06:00 UTC and 18:00 UTC
instants of the civil date — not its noon (12:00), midnight (00:00) or
following midnight (24:00) instants, refuting the noon/midnight-sentinel
claim. -/
theorem sunrise_sentinel_not_noon_counterexample :
    (calculateSunrise none (4921695 / 2) ≠
      dateToJulianDay { julianDayToDate (4921695 / 2) with
        hour := 12, minute := 0, second := 0 }) ∧
    (calculateSunrise none (4921695 / 2) ≠
      dateToJulianDay { julianDayToDate (4921695 / 2) with
        hour := 0, minute := 0, second := 0 }) ∧
    (calculateSunrise none (4921695 / 2) ≠
      dateToJulianDay { julianDayToDate (4921695 / 2) with
        hour := 24, minute := 0, second := 0 }) ∧
    (calculateSunset none (4921695 / 2) ≠
      dateToJulianDay { julianDayToDate (4921695 / 2) with
        hour := 12, minute := 0, second := 0 }) ∧
    (calculateSunset none (4921695 / 2) ≠
      dateToJulianDay { julianDayToDate (4921695 / 2) with
        hour := 0, minute := 0, second := 0 }) ∧
    (calculateSunset none (4921695 / 2) ≠
      dateToJulianDay { julianDayToDate (4921695 / 2) with
        hour := 24, minute := 0, second := 0 }) := by
  refine ⟨?_, ?_, ?_, ?_, ?_, ?_⟩ <;>
    · intro he
      first
        | (have h := dateToJulianDay_hour_shift
            (julianDayToDate ((4921695 : ℚ) / 2)) 6 12
           rw [show calculateSunrise none ((4921695 : ℚ) / 2) =
              dateToJulianDay { julianDayToDate ((4921695 : ℚ) / 2) with
                hour := 6, minute := 0, second := 0 } from rfl] at he
           rw [he, sub_self] at h
           norm_num at h)
        | (have h := dateToJulianDay_hour_shift
            (julianDayToDate ((4921695 : ℚ) / 2)) 6 0
           rw [show calculateSunrise none ((4921695 : ℚ) / 2) =
              dateToJulianDay { julianDayToDate ((4921695 : ℚ) / 2) with
                hour := 6, minute := 0, second := 0 } from rfl] at he
           rw [he, sub_self] at h
           norm_num at h)
        | (have h := dateToJulianDay_hour_shift
            (julianDayToDate ((4921695 : ℚ) / 2)) 6 24
           rw [show calculateSunrise none ((4921695 : ℚ) / 2) =
              dateToJulianDay { julianDayToDate ((4921695 : ℚ) / 2) with
                hour := 6, minute := 0, second := 0 } from rfl] at he
           rw [he, sub_self] at h
           norm_num at h)
        | (have h := dateToJulianDay_hour_shift
            (julianDayToDate ((4921695 : ℚ) / 2)) 18 12
           rw [show calculateSunset none ((4921695 : ℚ) / 2) =
              dateToJulianDay { julianDayToDate ((4921695 : ℚ) / 2) with
                hour := 18, minute := 0, second := 0 } from rfl] at he
           rw [he, sub_self] at h
           norm_num at h)
        | (have h := dateToJulianDay_hour_shift
            (julianDayToDate ((4921695 : ℚ) / 2)) 18 0
           rw [show calculateSunset none ((4921695 : ℚ) / 2) =
              dateToJulianDay { julianDayToDate ((4921695 : ℚ) / 2) with
                hour := 18, minute := 0, second := 0 } from rfl] at he
           rw [he, sub_self] at h
           norm_num at h)
        | (have h := dateToJulianDay_hour_shift
            (julianDayToDate ((4921695 : ℚ) / 2)) 18 24
           rw [show calculateSunset none ((4921695 : ℚ) / 2) =
              dateToJulianDay { julianDayToDate ((4921695 : ℚ) / 2) with
                hour := 18, minute := 0, second := 0 } from rfl] at he
           rw [he, sub_self] at h
           norm_num at h)

/-- C2 (amended): when SunCalc reports no sunrise/sunset event, the report
is still produced with the sunrise sentinel at 06:00:00 UTC and the sunset
sentinel at 18:00:00 UTC of the civil date of the query JD (so the two
sentinels are always half a day apart); the response carries no
`incomplete` flag. -/
theorem polar_fallback_sentinels (jd : ℚ) :
    calculateSunrise none jd = dateToJulianDay
      { julianDayToDate jd with hour := 6, minute := 0, second := 0 } ∧
    calculateSunset none jd = dateToJulianDay
      { julianDayToDate jd with hour := 18, minute := 0, second := 0 } ∧
    calculateSunset none jd - calculateSunrise none jd = 1 / 2 := by
  refine ⟨rfl, rfl, ?_⟩
  have h := dateToJulianDay_hour_shift (julianDayToDate jd) 18 6
  show dateToJulianDay { julianDayToDate jd with
      hour := 18, minute := 0, second := 0 } -
    dateToJulianDay { julianDayToDate jd with
      hour := 6, minute := 0, second := 0 } = 1 / 2
  rw [h]
  norm_num

-- ---------------------------------------------------------------------------
-- C3: unknown birth nakshatra
-- ---------------------------------------------------------------------------

/-- C3 counterexample: a request with the unknown birth nakshatra
`"NotANakshatra"` passes the zod schema validation (which only checks it is
a string), and the service's Chandrashtama field is null rather than an
error — the request is not rejected. -/
theorem unknown_nakshatra_not_rejected_counterexample :
    panchangamRequestSchemaCheck
      ⟨"2025-03-14", 130827 / 10000, 802707 / 10000, "Asia/Kolkata",
        some "NotANakshatra"⟩ = true ∧
    getNakshatraByName "NotANakshatra" = none ∧
    chandrashtamaField (fun _ => 0) 0 (some "NotANakshatra") = none := by
  refine ⟨?_, rfl, rfl⟩
  simp only [panchangamRequestSchemaCheck, Bool.and_eq_true, decide_eq_true_eq]
  refine ⟨⟨⟨⟨⟨rfl, by norm_num⟩, by norm_num⟩, by norm_num⟩, by norm_num⟩,
    by decide⟩

/-- C3 (amended): an unrecognized birth nakshatra is not rejected: schema
validation ignores the `birthNakshatra` field entirely, and
`calculateChandrashtama` returns null for it, so the report is produced
with a null Chandrashtama field and no `InvalidInput` error is raised. -/
theorem unknown_nakshatra_yields_null (moonLonAt : ℚ → ℚ) (jd : ℚ)
    (name : String) (h : getNakshatraByName name = none) :
    calculateChandrashtama moonLonAt jd name = none ∧
    ∀ (r : PanchangamRequest) (bn : Option String),
      panchangamRequestSchemaCheck { r with birthNakshatra := bn } =
        panchangamRequestSchemaCheck r := by
  constructor
  · have hb : getBirthMoonRasi name = none := by
      rw [getBirthMoonRasi, h, Option.map_none']
    simp only [calculateChandrashtama, hb]
  · intro r bn
    rfl

/-- Witness for C3's amended claim at the unknown name `"Foo"`. -/
theorem unknown_nakshatra_yields_null_witness :
    calculateChandrashtama (fun _ => 0) 0 "Foo" = none :=
  (unknown_nakshatra_yields_null (fun _ => 0) 0 "Foo" rfl).1

-- ---------------------------------------------------------------------------
-- C4: Tamil day rule used by the daily report
-- ---------------------------------------------------------------------------

/-- C4 counterexample: with the Sun fixed at sidereal longitude 15.7°, the
daily report's Tamil day (degree-based, `floor(15.7 mod 30) + 1 = 16`)
differs from the civil sankranti rule's day (`calculateTamilDate` finds no
month transition in the past 35 days and reports day 1), so the report does
not follow the civil rule. -/
theorem tamil_day_not_civil_rule_counterexample :
    tamilDayOfService (fun _ => 157 / 10) 0 = 16 ∧
    calculateTamilDate (fun _ => 157 / 10) (fun d => (d : ℚ))
      (fun d => (d : ℚ) + 1 / 2) 0 = 1 ∧
    (16 : ℤ) ≠ 1 := by
  refine ⟨?_, ?_, by decide⟩
  · show getTamilDay ((157 : ℚ) / 10) = 16
    have e1 : jsMod ((157 : ℚ) / 10) 360 = 157 / 10 :=
      jsMod_eq_of_nonneg 0 le_rfl (by norm_num) (by norm_num) (by norm_num)
        (by norm_num)
    have e2 : jsMod ((157 : ℚ) / 10 + 360) 360 = 157 / 10 :=
      jsMod_eq_of_nonneg 1 (by norm_num) (by norm_num) (by norm_num)
        (by norm_num) (by norm_num)
    have hnorm : normalize360 ((157 : ℚ) / 10) = 157 / 10 := by
      rw [normalize360, e1, e2]
    have e3 : jsMod ((157 : ℚ) / 10) 30 = 157 / 10 :=
      jsMod_eq_of_nonneg 0 le_rfl (by norm_num) (by norm_num) (by norm_num)
        (by norm_num)
    show (⌊jsMod (normalize360 ((157 : ℚ) / 10)) 30⌋ + 1 : ℤ) = 16
    rw [hnorm, e3,
      floor_eq_int (show ((15 : ℤ) : ℚ) ≤ 157 / 10 by norm_num) (by norm_num)]
    decide
  · have heff : ∀ d : ℤ, getEffectiveMonthIndex (fun _ => 157 / 10)
        (fun d => (d : ℚ)) (fun d => (d : ℚ) + 1 / 2) d = 0 := by
      intro d
      show (if (⌊(157 : ℚ) / 10 / 30⌋ : ℤ) ≠ ⌊(157 : ℚ) / 10 / 30⌋ then
        (⌊(157 : ℚ) / 10 / 30⌋ : ℤ).tmod 12 else
        (⌊(157 : ℚ) / 10 / 30⌋ : ℤ).tmod 12) = 0
      rw [if_neg (not_not_intro rfl),
        floor_eq_int (show ((0 : ℤ) : ℚ) ≤ 157 / 10 / 30 by norm_num)
          (by norm_num)]
      decide
    have hpred : ∀ i : ℤ, (getEffectiveMonthIndex (fun _ => (157 : ℚ) / 10)
        (fun d => (d : ℚ)) (fun d => (d : ℚ) + 1 / 2) ((0 : ℤ) - i) !=
        getEffectiveMonthIndex (fun _ => (157 : ℚ) / 10) (fun d => (d : ℚ))
          (fun d => (d : ℚ) + 1 / 2) 0) = false := by
      intro i
      rw [heff, heff]
      rfl
    rw [calculateTamilDate]
    simp only [hpred]
    rfl

/-- C4 (amended): the daily report's Tamil day is the degree-based
approximation: the service computes it as `getTamilDay` of the Sun's
longitude at sunrise, i.e. `floor((sunLon mod 360 normalized) mod 30) + 1`,
which always lies in 1..30; the civil sankranti rule lives in the separate
unused `calculateTamilDate` module, and no configuration flag switches
between the two. -/
theorem tamil_day_degree_based (sunLonAt : ℚ → ℚ) (sunriseJD : ℚ) :
    tamilDayOfService sunLonAt sunriseJD = getTamilDay (sunLonAt sunriseJD) ∧
    1 ≤ getTamilDay (sunLonAt sunriseJD) ∧
    getTamilDay (sunLonAt sunriseJD) ≤ 30 := by
  have key : 1 ≤ getTamilDay (sunLonAt sunriseJD) ∧
      getTamilDay (sunLonAt sunriseJD) ≤ 30 := by
    obtain ⟨h1, _⟩ := normalize360_bounds (sunLonAt sunriseJD)
    obtain ⟨g1, g2⟩ := jsMod_nonneg_lt h1 (by norm_num : (0 : ℚ) < 30)
    have hf1 : 0 ≤ ⌊jsMod (normalize360 (sunLonAt sunriseJD)) 30⌋ :=
      Int.floor_nonneg.mpr g1
    have hf2 : ⌊jsMod (normalize360 (sunLonAt sunriseJD)) 30⌋ < 30 := by
      rw [Int.floor_lt]
      push_cast
      linarith
    show (1 ≤ ⌊jsMod (normalize360 (sunLonAt sunriseJD)) 30⌋ + 1 ∧
      ⌊jsMod (normalize360 (sunLonAt sunriseJD)) 30⌋ + 1 ≤ 30)
    omega
  exact ⟨rfl, key.1, key.2⟩

end Astro
